import Mathlib

/-!
Shallow embedding of the OCR web portal's reusable core (`src/app.py`):
the option-to-command-line mapping (`OcrOptions.get_cli_parameters`), the
single-document executor (`ocr_single_pdf`), the batch runner
(`ocr_multi_pdf`), the archive packager (`create_ocr_zip_buffer`) and the
image-extraction variant (`extract_images_from_multi_pdf`,
`save_image_file`, `create_images_zip_buffer`).

External effects are modelled explicitly: the child process is an
environment parameter (`Env.run`) giving exit code, captured streams and
the bytes the tool left at the output path; Streamlit UI calls
(`st.spinner`, `st.error`, `st.code`) are an emitted message list; a ZIP
archive is its ordered list of entries; a Python `dict` is an association
list with insert-or-replace assignment.  Captured subprocess streams are
assumed to be valid UTF-8, so the `bytes.decode()` in `ocr_single_pdf` is
the identity on their text; calling `.decode()` on a value that is already
a `str` (as `ocr_multi_pdf` does on `OcrResult.stdout` / `.stderr`) is a
Python 3 `AttributeError`, modelled by `strDecode`.
-/

/-- Radio label bound to the `--clean` flag (`CLEAN` in `src/app.py`). -/
def CLEAN : String := "Clean up pages before OCR, but do not alter the final output"

/-- Radio label bound to the `--clean-final` flag (`CLEAN_FINAL` in `src/app.py`). -/
def CLEAN_FINAL : String := "Clean up pages before OCR and inserts the page into the final output"

/-- First option of the cleanup radio in `main` ("Do not clean up"): selects neither flag. -/
def DO_NOT_CLEAN : String := "Do not clean up"

/-- The frozen dataclass `OcrOptions` of `src/app.py`.  `clean_option` is the
radio's string value; `optimize_n` is a Python `int` (the slider keeps it in
`[0,3]`). -/
structure OcrOptions where
  rotate_pages : Bool
  deskew : Bool
  clean_option : String
  redo_ocr : Bool
  optimize_n : Int
  deriving DecidableEq

/-- `OcrOptions.get_cli_parameters` (src/app.py lines 28-39): the insertion-ordered
`flags` dict becomes a list of (flag, enabled) pairs, the comprehension keeps the
enabled flags in that order, then `--optimize` and `str(optimize_n)` are appended. -/
def OcrOptions.get_cli_parameters (o : OcrOptions) : List String :=
  let flags : List (String × Bool) :=
    [("--rotate-pages", o.rotate_pages),
     ("--deskew", o.deskew),
     ("--clean", o.clean_option == CLEAN),
     ("--clean-final", o.clean_option == CLEAN_FINAL),
     ("--redo-ocr", o.redo_ocr)]
  let result := (flags.filter (fun p => p.2)).map (fun p => p.1)
  result ++ ["--optimize", toString o.optimize_n]

/-- The frozen dataclass `OcrResult` of `src/app.py`: `stdout`/`stderr` are the
decoded (`str`) captured streams; `output_file_content` the bytes read back from
the output temp file. -/
structure OcrResult where
  file_name : String
  return_code : Int
  stdout : String
  stderr : String
  output_file_content : List Nat
  deriving DecidableEq

/-- An uploaded file: its name and the bytes `uploaded_file.read()` yields. -/
structure UploadedFile where
  name : String
  content : List Nat
  deriving DecidableEq

/-- Outcome of one `subprocess.run` of the external tool: exit code, the text of
the two captured streams (assumed valid UTF-8), and the bytes the invocation
left at the output temp path (the `NamedTemporaryFile` starts empty, so this is
empty whenever the tool wrote nothing). -/
structure ToolRun where
  returncode : Int
  stdout : String
  stderr : String
  outputFileContent : List Nat
  deriving DecidableEq

/-- Per-invocation environment of `ocr_single_pdf`: the two scoped temp-file
paths and the child-process behaviour, a function of the command line and of
the bytes written to the input temp file. -/
structure Env where
  inputPath : String
  outputPath : String
  run : List String → List Nat → ToolRun

/-- The command list built in `ocr_single_pdf` (src/app.py lines 59-63):
`["ocrmypdf"]`, the CLI parameters, then the input/output paths as the final
positional pair. -/
def ocr_cmd (o : OcrOptions) (inputPath outputPath : String) : List String :=
  ["ocrmypdf"] ++ o.get_cli_parameters ++ [inputPath, outputPath]

/-- `ocr_single_pdf` (src/app.py lines 51-66): writes the upload to the input
temp file, runs the tool, and packages exit code, both decoded streams and the
output temp file's bytes into an `OcrResult`, regardless of the exit code. -/
def ocr_single_pdf (uploaded_file : UploadedFile) (options : OcrOptions) (env : Env) : OcrResult :=
  let cmd := ocr_cmd options env.inputPath env.outputPath
  let r := env.run cmd uploaded_file.content
  { file_name := uploaded_file.name
    return_code := r.returncode
    stdout := r.stdout
    stderr := r.stderr
    output_file_content := r.outputFileContent }

/-- A Python exception surfacing from the embedded code. -/
inductive PyError where
  | attributeError (msg : String)
  | valueError (msg : String)
  deriving DecidableEq

/-- Python 3 semantics of `s.decode()` when `s` is already a `str`: `str` has
no `decode` method (only `bytes` does), so the attribute access raises
`AttributeError` for every string. -/
def strDecode (_s : String) : Except PyError String :=
  Except.error (PyError.attributeError "str object has no attribute decode")

/-- A Streamlit UI call observable to the user: `st.spinner`, `st.error` or
`st.code`. -/
inductive UiMsg where
  | spinner (text : String)
  | error (text : String)
  | code (text : String)
  deriving DecidableEq

/-- The loop body of `ocr_multi_pdf` (src/app.py lines 73-85), one document at
a time over the per-document environments `envOf`.  On `return_code == 0` the
result joins `successful`; otherwise the code shows `st.error` and then calls
`st.code` on `result.stdout.decode()` / `result.stderr.decode()` — both fields
are already `str`, so `strDecode` raises and the exception propagates,
abandoning the loop (the result is never appended to `failed`). -/
def ocr_multi_pdf_go (options : OcrOptions) (envOf : UploadedFile → Env)
    (files : List UploadedFile) (successful failed : List OcrResult) (msgs : List UiMsg) :
    List UiMsg × Except PyError (List OcrResult × List OcrResult) :=
  match files with
  | [] => (msgs, Except.ok (successful, failed))
  | f :: rest =>
    let msgs1 := msgs ++ [UiMsg.spinner ("Processing " ++ f.name ++ "...")]
    let result := ocr_single_pdf f options (envOf f)
    if result.return_code == 0 then
      ocr_multi_pdf_go options envOf rest (successful ++ [result]) failed msgs1
    else
      let msgs2 := msgs1 ++
        [UiMsg.error ("OCRmyPDF failed to process " ++ f.name ++
          " with error code " ++ toString result.return_code)]
      match strDecode result.stdout with
      | Except.error e => (msgs2, Except.error e)
      | Except.ok s1 =>
        match strDecode result.stderr with
        | Except.error e => (msgs2, Except.error e)
        | Except.ok s2 =>
          let msgs3 := msgs2 ++ [UiMsg.code ("stdout:\n" ++ s1 ++ "\nstderr:\n" ++ s2)]
          ocr_multi_pdf_go options envOf rest successful (failed ++ [result]) msgs3

/-- `ocr_multi_pdf` (src/app.py lines 69-85): sequential fold of the executor
over the uploads, meant to partition results into (successful, failed); the
first component is the UI message trail, the second either that pair or the
exception that escaped. -/
def ocr_multi_pdf (uploaded_files : List UploadedFile) (options : OcrOptions)
    (envOf : UploadedFile → Env) :
    List UiMsg × Except PyError (List OcrResult × List OcrResult) :=
  ocr_multi_pdf_go options envOf uploaded_files [] [] []

/-- One member of a ZIP archive: its stored name and bytes. -/
structure ZipEntry where
  name : String
  content : List Nat
  deriving DecidableEq

/-- `zipfile.ZipFile.writestr`: appends a new entry; an existing entry with the
same name is kept (the format stores both, nothing is overwritten). -/
def zip_writestr (archive : List ZipEntry) (entry_name : String) (data : List Nat) :
    List ZipEntry :=
  archive ++ [{ name := entry_name, content := data }]

/-- `create_ocr_zip_buffer` (src/app.py lines 88-98): writes each result's
`output_file_content` under the entry name `file_name`, in iteration order,
into a fresh archive. -/
def create_ocr_zip_buffer (ocr_results : List OcrResult) : List ZipEntry :=
  ocr_results.foldl
    (fun buffer result => zip_writestr buffer result.file_name result.output_file_content) []

/-- Reading an archive back: the (name, bytes) pairs of its entries in stored
order, duplicates included. -/
def zip_entries (archive : List ZipEntry) : List (String × List Nat) :=
  archive.map (fun entry => (entry.name, entry.content))

/-- Index of the last `'.'` in a character list, if any. -/
def lastDotPos (cs : List Char) : Option Nat :=
  match cs with
  | [] => none
  | c :: rest =>
    match lastDotPos rest with
    | some i => some (i + 1)
    | none => if c = '.' then some 0 else none

/-- `pathlib.Path(name).stem`: the name with its last suffix removed, where a
suffix needs a `'.'` that is neither the first nor the last character. -/
def path_stem (file_name : String) : String :=
  let cs := file_name.toList
  match lastDotPos cs with
  | some i => if 0 < i ∧ i < cs.length - 1 then String.mk (cs.take i) else file_name
  | none => file_name

/-- Python `str.lower` (the code only applies it to ASCII format names):
lowercases each character.  Defined directly on the character list so that it
reduces inside the kernel (core's `String.toLower` is well-founded recursion
over byte positions, which does not). -/
def py_lower (s : String) : String := String.mk (s.data.map Char.toLower)

/-- How PIL encodes an image to bytes in `image.save`: JPEG at a quality, or
PNG (no quality parameter).  Abstracted, as PIL is an external library. -/
structure ImageCodec (Img : Type) where
  saveJpeg : Img → Nat → List Nat
  savePng : Img → List Nat

/-- A file written under the scoped temporary directory: its directory, its
final path component (`Path.name`) and its bytes. -/
structure SavedFile where
  dir : String
  base : String
  content : List Nat
  deriving DecidableEq

/-- `save_image_file` (src/app.py lines 101-113): writes the image to
`dir_path / f"{source_file_name}.page_{page_number}.{image_format.lower()}"`
as JPEG (with `quality`) or PNG, and raises `ValueError` on any other format. -/
def save_image_file {Img : Type} (codec : ImageCodec Img) (image : Img) (dir_path : String)
    (source_file_name : String) (page_number : Nat) (image_format : String) (quality : Nat) :
    Except PyError SavedFile :=
  let base := source_file_name ++ ".page_" ++ toString page_number ++ "." ++ py_lower image_format
  match py_lower image_format with
  | "jpeg" => Except.ok { dir := dir_path, base := base, content := codec.saveJpeg image quality }
  | "png" => Except.ok { dir := dir_path, base := base, content := codec.savePng image }
  | _ => Except.error (PyError.valueError ("Unexpected image format: " ++ image_format))

/-- The inner loop of `create_images_zip_buffer` (src/app.py line 140-141):
`for i, img in enumerate(images)` saves page `i + 1`; an exception propagates. -/
def save_pages {Img : Type} (codec : ImageCodec Img) (dir_path stem image_format : String)
    (quality : Nat) (images : List Img) (i : Nat) : Except PyError (List SavedFile) :=
  match images with
  | [] => Except.ok []
  | img :: rest =>
    match save_image_file codec img dir_path stem (i + 1) image_format quality with
    | Except.error e => Except.error e
    | Except.ok f =>
      match save_pages codec dir_path stem image_format quality rest (i + 1) with
      | Except.error e => Except.error e
      | Except.ok fs => Except.ok (f :: fs)

/-- The outer loop of `create_images_zip_buffer` (src/app.py lines 139-141):
documents in `extraction` iteration order, each contributing its pages with the
source's `Path(file_name).stem`. -/
def save_docs {Img : Type} (codec : ImageCodec Img) (dir_path image_format : String)
    (quality : Nat) (extraction : List (String × List Img)) : Except PyError (List SavedFile) :=
  match extraction with
  | [] => Except.ok []
  | (file_name, images) :: rest =>
    match save_pages codec dir_path (path_stem file_name) image_format quality images 0 with
    | Except.error e => Except.error e
    | Except.ok fs =>
      match save_docs codec dir_path image_format quality rest with
      | Except.error e => Except.error e
      | Except.ok fs2 => Except.ok (fs ++ fs2)

/-- `create_images_zip_buffer` (src/app.py lines 132-147): saves every page
image under a scoped temporary directory, then `zip_file.write(file_path,
file_path.name)` stores each file's bytes under its base name, in save order. -/
def create_images_zip_buffer {Img : Type} (codec : ImageCodec Img)
    (extraction : List (String × List Img)) (image_format : String) (quality : Nat)
    (temp_dir : String) : Except PyError (List ZipEntry) :=
  match save_docs codec temp_dir image_format quality extraction with
  | Except.error e => Except.error e
  | Except.ok file_paths =>
    Except.ok (file_paths.map (fun f => { name := f.base, content := f.content }))

/-- Python `dict` item assignment `d[k] = v`: replaces the value in place when
the key exists (keeping its position), otherwise appends the pair. -/
def dict_insert {α : Type} (d : List (String × α)) (k : String) (v : α) : List (String × α) :=
  match d with
  | [] => [(k, v)]
  | (k1, v1) :: rest => if k1 = k then (k, v) :: rest else (k1, v1) :: dict_insert rest k v

/-- The loop of `extract_images_from_multi_pdf` (src/app.py lines 121-128):
`results[filename] = convert_from_bytes(...)` under a try that, on any
exception, shows `st.error` and continues with the next upload. -/
def extract_go {Img : Type} (convert : List Nat → Nat → Except String (List Img)) (dpi : Nat)
    (files : List UploadedFile) (results : List (String × List Img)) (msgs : List UiMsg) :
    List (String × List Img) × List UiMsg :=
  match files with
  | [] => (results, msgs)
  | f :: rest =>
    let msgs1 := msgs ++ [UiMsg.spinner ("Processing " ++ f.name ++ "...")]
    match convert f.content dpi with
    | Except.ok images => extract_go convert dpi rest (dict_insert results f.name images) msgs1
    | Except.error e =>
      extract_go convert dpi rest results
        (msgs1 ++ [UiMsg.error ("Failed to extract images from " ++ f.name ++ ": " ++ e)])

/-- `extract_images_from_multi_pdf` (src/app.py lines 116-129): a dict keyed by
uploaded file name mapping to that file's page images; `convert` is
`pdf2image.convert_from_bytes`, an external call that may raise. -/
def extract_images_from_multi_pdf {Img : Type} (uploaded_files : List UploadedFile) (dpi : Nat)
    (convert : List Nat → Nat → Except String (List Img)) :
    List (String × List Img) × List UiMsg :=
  extract_go convert dpi uploaded_files [] []

/-- The last file of the batch carrying a given name: the "most recently
processed" upload with that name. -/
def last_with_name (files : List UploadedFile) (nm : String) : Option UploadedFile :=
  match files with
  | [] => none
  | f :: rest =>
    match last_with_name rest nm with
    | some g => some g
    | none => if f.name = nm then some f else none

/-- The boolean-flag prefix of `get_cli_parameters`: the enabled flags of the
`flags` dict in insertion order.  `get_cli_parameters` is definitionally this
list followed by the `--optimize` pair (`cli_split`). -/
def cli_flags_part (o : OcrOptions) : List String :=
  ([("--rotate-pages", o.rotate_pages),
    ("--deskew", o.deskew),
    ("--clean", o.clean_option == CLEAN),
    ("--clean-final", o.clean_option == CLEAN_FINAL),
    ("--redo-ocr", o.redo_ocr)].filter (fun p => p.2)).map (fun p => p.1)

/-- Concrete options for the evaluations below: rotate pages on, cleanup radio
on its "Do not clean up" default, optimization level 2. -/
def optsRotate : OcrOptions :=
  { rotate_pages := true, deskew := false, clean_option := DO_NOT_CLEAN,
    redo_ocr := false, optimize_n := 2 }

/-- An environment in which the tool exits non-zero (code 6, as ocrmypdf does
for a prior OCR layer) yet leaves bytes at the output path. -/
def envNonzeroExit : Env :=
  { inputPath := "/tmp/in.pdf", outputPath := "/tmp/out.pdf",
    run := fun _ _ =>
      { returncode := 6, stdout := "", stderr := "PriorOcrFoundError",
        outputFileContent := [37, 80, 68, 70] } }

/-- Per-document environments for a batch in which the tool fails (exit 1) on
the upload named `bad.pdf` and succeeds on every other one. -/
def envFor (f : UploadedFile) : Env :=
  { inputPath := "/tmp/in.pdf", outputPath := "/tmp/out.pdf",
    run := fun _ _ =>
      if f.name = "bad.pdf" then
        { returncode := 1, stdout := "ocr out", stderr := "ocr err", outputFileContent := [] }
      else
        { returncode := 0, stdout := "", stderr := "", outputFileContent := [80, 68, 70] } }

/-- A concrete codec over `Nat`-labelled images, for evaluating the image path
at concrete inputs. -/
def codecConst : ImageCodec Nat :=
  { saveJpeg := fun _ _ => [255, 216], savePng := fun _ => [137, 80] }

/-- A concrete conversion that always succeeds, returning the file's bytes as
its single list of page images. -/
def convertConst : List Nat → Nat → Except String (List Nat) :=
  fun file_bytes _ => Except.ok file_bytes

/-- `get_cli_parameters` splits as the enabled boolean flags followed by the
`--optimize` pair. -/
theorem cli_split (o : OcrOptions) :
    o.get_cli_parameters = cli_flags_part o ++ ["--optimize", toString o.optimize_n] := rfl

/-- C2: with `rotate_pages = true`, `deskew = false`, the cleanup radio on
neither `CLEAN` nor `CLEAN_FINAL`, `redo_ocr = false` and `optimize_n = 2`,
the built argument list is exactly `["--rotate-pages", "--optimize", "2"]`,
and the full command is that list between `"ocrmypdf"` and the final
positional input/output path pair. -/
theorem cli_parameters_scenario (c inp outp : String)
    (hc1 : c ≠ CLEAN) (hc2 : c ≠ CLEAN_FINAL) :
    (OcrOptions.mk true false c false 2).get_cli_parameters =
      ["--rotate-pages", "--optimize", "2"] ∧
    ocr_cmd (OcrOptions.mk true false c false 2) inp outp =
      ["ocrmypdf"] ++ ["--rotate-pages", "--optimize", "2"] ++ [inp, outp] := by
  have h1 : (c == CLEAN) = false := beq_eq_false_iff_ne.mpr hc1
  have h2 : (c == CLEAN_FINAL) = false := beq_eq_false_iff_ne.mpr hc2
  constructor
  · simp [OcrOptions.get_cli_parameters, h1, h2]
    decide
  · simp [ocr_cmd, OcrOptions.get_cli_parameters, h1, h2]
    decide

/-- Witness for `cli_parameters_scenario` at the radio's literal
"Do not clean up" value and concrete paths. -/
theorem cli_parameters_scenario_witness :
    (OcrOptions.mk true false DO_NOT_CLEAN false 2).get_cli_parameters =
      ["--rotate-pages", "--optimize", "2"] ∧
    ocr_cmd (OcrOptions.mk true false DO_NOT_CLEAN false 2) "/tmp/in.pdf" "/tmp/out.pdf" =
      ["ocrmypdf"] ++ ["--rotate-pages", "--optimize", "2"] ++ ["/tmp/in.pdf", "/tmp/out.pdf"] :=
  cli_parameters_scenario DO_NOT_CLEAN "/tmp/in.pdf" "/tmp/out.pdf" (by decide) (by decide)

/-- Every member of the boolean-flag prefix is one of the five fixed flags. -/
theorem mem_cli_flags_part (o : OcrOptions) (s : String) (hs : s ∈ cli_flags_part o) :
    s = "--rotate-pages" ∨ s = "--deskew" ∨ s = "--clean" ∨ s = "--clean-final" ∨
      s = "--redo-ocr" := by
  simp only [cli_flags_part, List.mem_map] at hs
  obtain ⟨p, hp, rfl⟩ := hs
  have hmem := List.mem_of_mem_filter hp
  simp only [List.mem_cons, List.not_mem_nil, or_false] at hmem
  rcases hmem with h | h | h | h | h <;> simp [h]

/-- C3: over every `OcrOptions` (with `optimize_n` in the slider's range
`[0,3]`), the built argument list never holds both `--clean` and
`--clean-final`; when the cleanup radio equals `CLEAN` it holds `--clean` and
not `--clean-final`, when it equals `CLEAN_FINAL` the reverse, and on any
other value neither. -/
theorem clean_flags_exclusive (o : OcrOptions)
    (h0 : 0 ≤ o.optimize_n) (h3 : o.optimize_n ≤ 3) :
    (¬ ("--clean" ∈ o.get_cli_parameters ∧ "--clean-final" ∈ o.get_cli_parameters)) ∧
    (o.clean_option = CLEAN →
      "--clean" ∈ o.get_cli_parameters ∧ "--clean-final" ∉ o.get_cli_parameters) ∧
    (o.clean_option = CLEAN_FINAL →
      "--clean-final" ∈ o.get_cli_parameters ∧ "--clean" ∉ o.get_cli_parameters) ∧
    (o.clean_option ≠ CLEAN ∧ o.clean_option ≠ CLEAN_FINAL →
      "--clean" ∉ o.get_cli_parameters ∧ "--clean-final" ∉ o.get_cli_parameters) := by
  obtain ⟨r, d, c, re, n⟩ := o
  have h0' : (0 : Int) ≤ n := h0
  have h3' : n ≤ 3 := h3
  by_cases hc : c = CLEAN
  · subst hc
    interval_cases n <;> cases r <;> cases d <;> cases re <;> decide
  · by_cases hcf : c = CLEAN_FINAL
    · subst hcf
      interval_cases n <;> cases r <;> cases d <;> cases re <;> decide
    · have e1 : (c == CLEAN) = false := beq_eq_false_iff_ne.mpr hc
      have e2 : (c == CLEAN_FINAL) = false := beq_eq_false_iff_ne.mpr hcf
      interval_cases n <;> cases r <;> cases d <;> cases re <;>
        simp [OcrOptions.get_cli_parameters, e1, e2, hc, hcf] <;> decide

/-- Witness for `clean_flags_exclusive` at concrete options selecting `CLEAN`. -/
theorem clean_flags_exclusive_witness :
    (¬ ("--clean" ∈ (OcrOptions.mk false true CLEAN false 1).get_cli_parameters ∧
        "--clean-final" ∈ (OcrOptions.mk false true CLEAN false 1).get_cli_parameters)) ∧
    ((OcrOptions.mk false true CLEAN false 1).clean_option = CLEAN →
      "--clean" ∈ (OcrOptions.mk false true CLEAN false 1).get_cli_parameters ∧
      "--clean-final" ∉ (OcrOptions.mk false true CLEAN false 1).get_cli_parameters) ∧
    ((OcrOptions.mk false true CLEAN false 1).clean_option = CLEAN_FINAL →
      "--clean-final" ∈ (OcrOptions.mk false true CLEAN false 1).get_cli_parameters ∧
      "--clean" ∉ (OcrOptions.mk false true CLEAN false 1).get_cli_parameters) ∧
    ((OcrOptions.mk false true CLEAN false 1).clean_option ≠ CLEAN ∧
        (OcrOptions.mk false true CLEAN false 1).clean_option ≠ CLEAN_FINAL →
      "--clean" ∉ (OcrOptions.mk false true CLEAN false 1).get_cli_parameters ∧
      "--clean-final" ∉ (OcrOptions.mk false true CLEAN false 1).get_cli_parameters) :=
  clean_flags_exclusive (OcrOptions.mk false true CLEAN false 1) (by decide) (by decide)

/-- For a level in the slider's range, its decimal string is not `--optimize`,
so the appended pair holds exactly one `--optimize` token. -/
theorem count_optimize_pair (n : Int) (h0 : 0 ≤ n) (h3 : n ≤ 3) :
    List.count "--optimize" ["--optimize", toString n] = 1 := by
  interval_cases n <;> decide

/-- C4: for every `OcrOptions` with `optimize_n` in `[0,3]` (0 included), the
built argument list holds exactly one `--optimize` token, immediately followed
by the decimal string of the level, whatever the other options. -/
theorem optimize_pair_exactly_once (o : OcrOptions)
    (h0 : 0 ≤ o.optimize_n) (h3 : o.optimize_n ≤ 3) :
    List.count "--optimize" o.get_cli_parameters = 1 ∧
    ∃ l1 l2, o.get_cli_parameters = l1 ++ ["--optimize", toString o.optimize_n] ++ l2 := by
  constructor
  · rw [cli_split, List.count_append]
    have hflags : List.count "--optimize" (cli_flags_part o) = 0 := by
      rw [List.count_eq_zero]
      intro hmem
      rcases mem_cli_flags_part o _ hmem with h | h | h | h | h <;> simp at h
    have hpair := count_optimize_pair o.optimize_n h0 h3
    omega
  · exact ⟨cli_flags_part o, [], by rw [List.append_nil]; exact cli_split o⟩

/-- Witness for `optimize_pair_exactly_once` at level 0 with all flags off. -/
theorem optimize_pair_exactly_once_witness :
    List.count "--optimize" (OcrOptions.mk false false DO_NOT_CLEAN false 0).get_cli_parameters
        = 1 ∧
    ∃ l1 l2, (OcrOptions.mk false false DO_NOT_CLEAN false 0).get_cli_parameters =
      l1 ++ ["--optimize",
        toString (OcrOptions.mk false false DO_NOT_CLEAN false 0).optimize_n] ++ l2 :=
  optimize_pair_exactly_once (OcrOptions.mk false false DO_NOT_CLEAN false 0)
    (by decide) (by decide)

/-- C5: `ocr_single_pdf` always returns an `OcrResult` (it is a total function
of the upload, the options and the environment, whatever exit code the tool
returns — no failure path depends on `returncode`), and that result carries the
child process's exit code and both captured streams verbatim, unmodified and
unfiltered. -/
theorem ocr_single_pdf_verbatim (f : UploadedFile) (o : OcrOptions) (env : Env) :
    (ocr_single_pdf f o env).file_name = f.name ∧
    (ocr_single_pdf f o env).return_code =
      (env.run (ocr_cmd o env.inputPath env.outputPath) f.content).returncode ∧
    (ocr_single_pdf f o env).stdout =
      (env.run (ocr_cmd o env.inputPath env.outputPath) f.content).stdout ∧
    (ocr_single_pdf f o env).stderr =
      (env.run (ocr_cmd o env.inputPath env.outputPath) f.content).stderr :=
  ⟨rfl, rfl, rfl, rfl⟩

/-- C8 (amended): `output_file_content` is the output temp file's bytes read
back verbatim, whatever the exit code — the code never clears it on failure,
so it is empty exactly when the tool wrote nothing there. -/
theorem ocr_single_pdf_output_verbatim (f : UploadedFile) (o : OcrOptions) (env : Env) :
    (ocr_single_pdf f o env).output_file_content =
      (env.run (ocr_cmd o env.inputPath env.outputPath) f.content).outputFileContent := rfl

/-- C8 counterexample: in `envNonzeroExit` the tool exits with code 6 and
leaves bytes at the output path, and the returned `OcrResult` has a non-zero
exit code together with a non-empty `output_file_content`. -/
theorem nonzero_exit_output_not_empty :
    (ocr_single_pdf ⟨"doc.pdf", [1, 2]⟩ optsRotate envNonzeroExit).return_code ≠ 0 ∧
    (ocr_single_pdf ⟨"doc.pdf", [1, 2]⟩ optsRotate envNonzeroExit).output_file_content ≠ [] := by
  decide

/-- C1: on a batch whose first document fails (exit 1), the runner shows the
spinner and the `st.error` line, then the `st.code` diagnostic raises
`AttributeError` (`str` has no `decode`); the failed result is never appended
and the remaining document is never processed — the failure aborts the batch
instead of being recovered locally. -/
theorem batch_failure_raises_attribute_error :
    ocr_multi_pdf [⟨"bad.pdf", [1]⟩, ⟨"good.pdf", [2]⟩] optsRotate envFor =
      ([UiMsg.spinner "Processing bad.pdf...",
        UiMsg.error "OCRmyPDF failed to process bad.pdf with error code 1"],
       Except.error (PyError.attributeError "str object has no attribute decode")) := rfl

/-- C6: on a two-document batch where the tool succeeds on `good.pdf` and
fails on `bad.pdf`, the runner returns no `(successes, failures)` pair at all
— the `AttributeError` escapes, so `successes = [good]`, `failures = [bad]` is
never produced. -/
theorem batch_partial_failure_no_partition :
    ocr_multi_pdf [⟨"good.pdf", [2]⟩, ⟨"bad.pdf", [1]⟩] optsRotate envFor =
      ([UiMsg.spinner "Processing good.pdf...",
        UiMsg.spinner "Processing bad.pdf...",
        UiMsg.error "OCRmyPDF failed to process bad.pdf with error code 1"],
       Except.error (PyError.attributeError "str object has no attribute decode")) := rfl

/-- Folding `writestr` over results appends one entry per result, in order. -/
theorem zip_fold_append (results : List OcrResult) (acc : List ZipEntry) :
    results.foldl (fun buffer r => zip_writestr buffer r.file_name r.output_file_content) acc =
      acc ++ results.map (fun r => { name := r.file_name, content := r.output_file_content }) := by
  induction results generalizing acc with
  | nil => simp
  | cons r rest ih =>
    rw [List.foldl_cons, ih]
    simp [zip_writestr, List.append_assoc]

/-- C7: packing K results and reading the archive back yields exactly K
entries whose names and bytes are the inputs' `file_name`/`output_file_content`
in insertion order — duplicates among the names are each stored (the map keeps
every occurrence), nothing is deduplicated or overwritten. -/
theorem create_ocr_zip_roundtrip (ocr_results : List OcrResult) :
    zip_entries (create_ocr_zip_buffer ocr_results) =
      ocr_results.map (fun r => (r.file_name, r.output_file_content)) ∧
    (create_ocr_zip_buffer ocr_results).length = ocr_results.length := by
  constructor
  · simp [create_ocr_zip_buffer, zip_fold_append, zip_entries, List.map_map]
  · simp [create_ocr_zip_buffer, zip_fold_append]

/-- The page loop saves one file per image; for pages counted from `i`, the
base names are `{stem}.page_{i+k+1}.{format}` in page order. -/
theorem save_pages_names {Img : Type} (codec : ImageCodec Img) (dir stem fmt : String)
    (quality : Nat) (hfmt : py_lower fmt = "jpeg" ∨ py_lower fmt = "png") :
    ∀ (images : List Img) (i : Nat),
      ∃ fs, save_pages codec dir stem fmt quality images i = Except.ok fs ∧
        fs.map SavedFile.base =
          (List.range images.length).map
            (fun k => stem ++ ".page_" ++ toString (i + k + 1) ++ "." ++ py_lower fmt) := by
  intro images
  induction images with
  | nil => exact fun i => ⟨[], rfl, by simp⟩
  | cons img rest ih =>
    intro i
    obtain ⟨fs, hfs, hnames⟩ := ih (i + 1)
    obtain ⟨cont, hsave⟩ :
        ∃ cont, save_image_file codec img dir stem (i + 1) fmt quality =
          Except.ok { dir := dir,
                      base := stem ++ ".page_" ++ toString (i + 1) ++ "." ++ py_lower fmt,
                      content := cont } := by
      rcases hfmt with h | h
      · exact ⟨codec.saveJpeg img quality, by simp [save_image_file, h]⟩
      · exact ⟨codec.savePng img, by simp [save_image_file, h]⟩
    refine ⟨{ dir := dir, base := stem ++ ".page_" ++ toString (i + 1) ++ "." ++ py_lower fmt,
              content := cont } :: fs, ?_, ?_⟩
    · simp only [save_pages, hsave, hfs]
    · rw [List.map_cons, List.length_cons, List.range_succ_eq_map, List.map_cons, List.map_map]
      refine List.cons_eq_cons.mpr ⟨rfl, ?_⟩
      rw [hnames]
      refine List.map_congr_left fun k _ => ?_
      simp only [Function.comp_apply, Nat.succ_eq_add_one]
      rw [show i + 1 + k + 1 = i + (k + 1) + 1 from by omega]

/-- The document loop concatenates each document's page files in iteration
order, pages 1-based, stems from `Path(file_name).stem`. -/
theorem save_docs_names {Img : Type} (codec : ImageCodec Img) (dir fmt : String) (quality : Nat)
    (hfmt : py_lower fmt = "jpeg" ∨ py_lower fmt = "png") :
    ∀ extraction : List (String × List Img),
      ∃ fs, save_docs codec dir fmt quality extraction = Except.ok fs ∧
        fs.map SavedFile.base =
          extraction.flatMap (fun doc =>
            (List.range doc.2.length).map
              (fun k => path_stem doc.1 ++ ".page_" ++ toString (k + 1) ++ "." ++
                py_lower fmt)) := by
  intro extraction
  induction extraction with
  | nil => exact ⟨[], rfl, by simp⟩
  | cons doc rest ih =>
    obtain ⟨file_name, images⟩ := doc
    obtain ⟨fs2, hfs2, hnames2⟩ := ih
    obtain ⟨fs1, hfs1, hnames1⟩ :=
      save_pages_names codec dir (path_stem file_name) fmt quality hfmt images 0
    refine ⟨fs1 ++ fs2, ?_, ?_⟩
    · simp only [save_docs, hfs1, hfs2]
    · simp only [List.map_append, hnames1, hnames2, List.flatMap_cons]
      congr 1
      apply List.map_congr_left
      intro k _
      have h1 : 0 + k + 1 = k + 1 := by omega
      simp [h1]

/-- C9: for a valid format selection (JPEG or PNG, case-insensitive), the
archive holds, for each source document in submission order and each of its
pages in page order, one entry named
`{source_stem}.page_{n}.{lowercased format}` with `n` starting at 1. -/
theorem images_zip_entry_names {Img : Type} (codec : ImageCodec Img)
    (extraction : List (String × List Img)) (image_format : String) (quality : Nat)
    (temp_dir : String)
    (hfmt : py_lower image_format = "jpeg" ∨ py_lower image_format = "png") :
    ∃ entries, create_images_zip_buffer codec extraction image_format quality temp_dir =
        Except.ok entries ∧
      entries.map ZipEntry.name =
        extraction.flatMap (fun doc =>
          (List.range doc.2.length).map
            (fun k =>
              path_stem doc.1 ++ ".page_" ++ toString (k + 1) ++ "." ++
                py_lower image_format)) := by
  obtain ⟨fs, hfs, hnames⟩ := save_docs_names codec temp_dir image_format quality hfmt extraction
  refine ⟨fs.map (fun f => { name := f.base, content := f.content }), ?_, ?_⟩
  · simp only [create_images_zip_buffer, hfs]
  · simpa [List.map_map] using hnames

/-- Witness for `images_zip_entry_names`: one two-page document, format
`"JPEG"`. -/
theorem images_zip_entry_names_witness :
    ∃ entries, create_images_zip_buffer codecConst [("doc.pdf", [7, 8])] "JPEG" 95 "/tmp/imgs" =
        Except.ok entries ∧
      entries.map ZipEntry.name =
        [("doc.pdf", ([7, 8] : List Nat))].flatMap (fun doc =>
          (List.range doc.2.length).map
            (fun k => path_stem doc.1 ++ ".page_" ++ toString (k + 1) ++ "." ++
              py_lower "JPEG")) :=
  images_zip_entry_names codecConst [("doc.pdf", [7, 8])] "JPEG" 95 "/tmp/imgs"
    (Or.inl (by decide))

/-- Looking up the key just assigned by `dict_insert` yields the new value. -/
theorem lookup_dict_insert_self {α : Type} (d : List (String × α)) (k : String) (v : α) :
    List.lookup k (dict_insert d k v) = some v := by
  induction d with
  | nil => simp [dict_insert, List.lookup]
  | cons p rest ih =>
    obtain ⟨k1, v1⟩ := p
    by_cases h : k1 = k
    · simp [dict_insert, h, List.lookup]
    · have hne : k ≠ k1 := fun e => h e.symm
      simp [dict_insert, h, List.lookup, beq_eq_false_iff_ne.mpr hne, ih]

/-- `dict_insert` leaves every other key's binding unchanged. -/
theorem lookup_dict_insert_other {α : Type} (d : List (String × α)) (k k2 : String) (v : α)
    (hne : k2 ≠ k) : List.lookup k2 (dict_insert d k v) = List.lookup k2 d := by
  induction d with
  | nil => simp [dict_insert, List.lookup, beq_eq_false_iff_ne.mpr hne]
  | cons p rest ih =>
    obtain ⟨k1, v1⟩ := p
    by_cases h : k1 = k
    · subst h
      simp [dict_insert, List.lookup, beq_eq_false_iff_ne.mpr hne]
    · simp [dict_insert, h, List.lookup, ih]

/-- Through the extraction loop, a name's binding is the conversion of the
last upload carrying that name (when every conversion succeeds), or the
accumulator's binding when no upload carries it. -/
theorem extract_go_lookup {Img : Type} (convert : List Nat → Nat → Except String (List Img))
    (dpi : Nat) (nm : String) :
    ∀ (files : List UploadedFile) (results : List (String × List Img)) (msgs : List UiMsg),
      (∀ f ∈ files, ∃ imgs, convert f.content dpi = Except.ok imgs) →
      List.lookup nm (extract_go convert dpi files results msgs).1 =
        (match last_with_name files nm with
         | some g => (convert g.content dpi).toOption
         | none => List.lookup nm results) := by
  intro files
  induction files with
  | nil => intro results msgs _; rfl
  | cons f rest ih =>
    intro results msgs hok
    obtain ⟨imgs, himgs⟩ := hok f (by simp)
    have hok2 : ∀ g ∈ rest, ∃ i, convert g.content dpi = Except.ok i :=
      fun g hg => hok g (by simp [hg])
    simp only [extract_go, himgs]
    rw [ih _ _ hok2]
    cases hrest : last_with_name rest nm with
    | some g => simp [last_with_name, hrest]
    | none =>
      by_cases hf : f.name = nm
      · subst hf
        simp [last_with_name, hrest, lookup_dict_insert_self, himgs, Except.toOption]
      · simp [last_with_name, hrest, hf, lookup_dict_insert_other _ _ _ _ (fun e => hf e.symm)]

/-- C10: the extraction batch is keyed by uploaded file name, so when several
uploads share a name (and their conversions succeed), the returned mapping
binds that name to the page images of the last such upload — each earlier
same-named upload's images are replaced, unlike the OCR archive path, which
stores duplicates. -/
theorem extract_images_last_wins {Img : Type} (uploaded_files : List UploadedFile) (dpi : Nat)
    (convert : List Nat → Nat → Except String (List Img))
    (hok : ∀ f ∈ uploaded_files, ∃ imgs, convert f.content dpi = Except.ok imgs)
    (nm : String) (f : UploadedFile)
    (hlast : last_with_name uploaded_files nm = some f) :
    List.lookup nm (extract_images_from_multi_pdf uploaded_files dpi convert).1 =
      (convert f.content dpi).toOption := by
  have h := extract_go_lookup convert dpi nm uploaded_files [] [] hok
  simp only [extract_images_from_multi_pdf]
  rw [h, hlast]

/-- Witness for `extract_images_last_wins`: two uploads both named `a.pdf`;
the mapping binds `a.pdf` to the images of the second. -/
theorem extract_images_last_wins_witness :
    List.lookup "a.pdf"
        (extract_images_from_multi_pdf [⟨"a.pdf", [1]⟩, ⟨"a.pdf", [2]⟩] 200 convertConst).1 =
      (convertConst [2] 200).toOption :=
  extract_images_last_wins [⟨"a.pdf", [1]⟩, ⟨"a.pdf", [2]⟩] 200 convertConst
    (fun f _ => ⟨f.content, rfl⟩) "a.pdf" ⟨"a.pdf", [2]⟩ (by decide)
